import Mathlib

/-!
Verification of the DeePray base-trainable module and the
NeuralFactorizationMachine model subclass.

The definitions below are a shallow embedding of
`src/deepray/base/base_trainable.py` and `src/deepray/model/model_nfm.py`:
Python floats used as learning rates are modelled as rationals (no
arithmetic is ever performed on them, they are only stored and returned),
Python ints as `Int` or `Nat`, raised exceptions as `Except PyError`,
and the tensorflow dataset built by `tfrecord_pipeline` as a free term
algebra `Dataset` recording which operators were applied in which order.
-/

namespace DeePray

/-- Python exceptions raised by this module. -/
inductive PyError : Type
  | NotImplementedError (msg : String)
  | ValueError (msg : String)
  deriving DecidableEq, Repr

/-- The values accepted by the `optimizer` enum flag, in the order of the
`flags.DEFINE_enum("optimizer", ...)` declaration. -/
def optimizer_enum_values : List String :=
  ["adam", "adagrad", "adadelta", "lazyadam", "sgd", "RMSprop", "ftrl"]

/-- The optimizer classes the seven branches of `build_optimizer` select. -/
inductive OptimizerKind : Type
  | Adam | Adadelta | Adagrad | LazyAdam | Ftrl | SGD | RMSprop
  deriving DecidableEq, Repr

/-- The object returned by `build_optimizer`: the selected class
instantiated with `learning_rate=self.flags.learning_rate`. -/
structure OptimizerInstance : Type where
  kind : OptimizerKind
  learning_rate : ℚ
  deriving DecidableEq, Repr

/-- `BaseTrainable.build_optimizer`: the if/elif chain over
`self.flags.optimizer`, else `raise ValueError(...)`; the selected class is
called with the `learning_rate` flag. -/
def build_optimizer (optimizer : String) (learning_rate : ℚ) :
    Except PyError OptimizerInstance :=
  let kind : Except PyError OptimizerKind :=
    if optimizer = "adam" then Except.ok OptimizerKind.Adam
    else if optimizer = "adadelta" then Except.ok OptimizerKind.Adadelta
    else if optimizer = "adagrad" then Except.ok OptimizerKind.Adagrad
    else if optimizer = "lazyadam" then Except.ok OptimizerKind.LazyAdam
    else if optimizer = "ftrl" then Except.ok OptimizerKind.Ftrl
    else if optimizer = "sgd" then Except.ok OptimizerKind.SGD
    else if optimizer = "RMSprop" then Except.ok OptimizerKind.RMSprop
    else Except.error
      (PyError.ValueError ("--optimizer " ++ optimizer ++ " was not found."))
  kind.map (fun k => ⟨k, learning_rate⟩)

/-- The module-level `LR_SCHEDULE` table: (epoch to start, learning rate). -/
def LR_SCHEDULE : List (Int × ℚ) :=
  [(3, 0.05), (6, 0.01), (9, 0.005), (12, 0.001)]

/-- The `for i in range(len(LR_SCHEDULE))` loop body of `lr_schedule`:
return the rate of the first table entry whose epoch equals `epoch`,
else fall through to `return lr`. -/
def lrLookup : List (Int × ℚ) → Int → ℚ → ℚ
  | [], _, lr => lr
  | (e, r) :: rest, epoch, lr => if epoch = e then r else lrLookup rest epoch lr

/-- `BaseTrainable.lr_schedule(epoch, lr)`: return `lr` when `epoch` is
below `LR_SCHEDULE[0][0]` or above `LR_SCHEDULE[-1][0]`, else scan the
table for a matching epoch. -/
def lr_schedule (epoch : Int) (lr : ℚ) : ℚ :=
  if epoch < (LR_SCHEDULE.headI).1 ∨ epoch > (LR_SCHEDULE.getLastI).1 then lr
  else lrLookup LR_SCHEDULE epoch lr

/-- Loss objects constructed by `build_loss`. -/
inductive Loss : Type
  | BinaryCrossentropy
  | SparseCategoricalCrossentropy
  deriving DecidableEq, Repr

/-- Metric objects constructed by `build_metrics`. -/
inductive Metric : Type
  | AUC
  | BinaryAccuracy
  | SparseCategoricalAccuracy
  deriving DecidableEq, Repr

/-- `BaseTrainable.build_loss`: branch on `self.VOC_SIZE[self.LABEL] == 2`. -/
def build_loss (VOC_SIZE : String → Nat) (LABEL : String) : Loss :=
  if VOC_SIZE LABEL = 2 then Loss.BinaryCrossentropy
  else Loss.SparseCategoricalCrossentropy

/-- `BaseTrainable.build_metrics`: start from the empty list and append
AUC and BinaryAccuracy in the binary branch, else append
SparseCategoricalAccuracy. -/
def build_metrics (VOC_SIZE : String → Nat) (LABEL : String) : List Metric :=
  if VOC_SIZE LABEL = 2 then [Metric.AUC, Metric.BinaryAccuracy]
  else [Metric.SparseCategoricalAccuracy]

/-- The tuple `get_summary` is documented to return:
label name, category features, numerical features, vocabulary sizes,
variable-length features. -/
structure Summary : Type where
  LABEL : String
  CATEGORY_FEATURES : List String
  NUMERICAL_FEATURES : List String
  VOC_SIZE : String → Nat
  VARIABLE_FEATURES : List String

/-- `BaseTrainable.get_summary`: unconditionally
`raise NotImplementedError(...)`. -/
def get_summary : Except PyError Summary :=
  Except.error (PyError.NotImplementedError
    "parser(called by tfrecord_pipeline): not implemented!")

/-- `BaseTrainable.parser(record)`: unconditionally
`raise NotImplementedError(...)`, whatever the record and the expected
parsed type. -/
def parser {α β : Type} (record : α) : Except PyError β :=
  Except.error (PyError.NotImplementedError
    "parser(called by tfrecord_pipeline): not implemented!")

/-- Tests whether an evaluation outcome is a raised NotImplementedError. -/
def raisedNotImplemented {α : Type} : Except PyError α → Bool
  | Except.error (PyError.NotImplementedError _) => true
  | _ => false

/-- The `num_parallel_calls` argument of the `.map` call:
`tf.data.experimental.AUTOTUNE if flags.parallel_parse is None else
flags.parallel_parse`. -/
inductive NumParallelCalls : Type
  | AUTOTUNE
  | degree (n : Nat)
  deriving DecidableEq, Repr

/-- Evaluates the `num_parallel_calls` conditional expression on the
`parallel_parse` flag. -/
def num_parallel_calls_of : Option Nat → NumParallelCalls
  | none => NumParallelCalls.AUTOTUNE
  | some n => NumParallelCalls.degree n

/-- The dataset expression built by `tfrecord_pipeline`, as a free term
algebra: each constructor records one applied dataset operator and its
numeric arguments. The function mapped by `map` is always `cls.parser`. -/
inductive Dataset : Type
  | TFRecordDataset (files : List String) (compression_type : Option String)
  | map (d : Dataset) (num_parallel_calls : NumParallelCalls)
  | shuffle (d : Dataset) (buffer_size : Nat)
  | repeatOp (d : Dataset) (count : Nat)
  | batch (d : Dataset) (batch_size : Nat)
  | prefetch (d : Dataset) (buffer_size : Nat)
  deriving DecidableEq, Repr

/-- The flag values `tfrecord_pipeline`, `create_train_data_iterator` and
`build_optimizer` read from `FLAGS`. -/
structure Flags : Type where
  gzip : Bool
  parallel_parse : Option Nat
  shuffle_buffer : Nat
  prefetch_buffer : Nat
  batch_size : Nat
  epochs : Nat
  train_data : String
  valid_data : String
  optimizer : String
  learning_rate : ℚ

/-- `BaseTrainable.tfrecord_pipeline`: TFRecordDataset over the one-element
file list, with GZIP compression iff the `gzip` flag is set, then `.map`
with the parser; `.shuffle` when `shuffle` is true; then `.repeat(epochs)`,
`.batch(batch_size)`, `.prefetch(prefetch_buffer)`. `shuffle` defaults to
true as in the Python signature. -/
def tfrecord_pipeline (flags : Flags) (tfrecord_files : String)
    (batch_size : Nat) (epochs : Nat) (shuffle : Bool := true) : Dataset :=
  let dataset := Dataset.map
    (Dataset.TFRecordDataset [tfrecord_files]
      (if flags.gzip then some "GZIP" else none))
    (num_parallel_calls_of flags.parallel_parse)
  let dataset := if shuffle then Dataset.shuffle dataset flags.shuffle_buffer
    else dataset
  Dataset.prefetch
    (Dataset.batch (Dataset.repeatOp dataset epochs) batch_size)
    flags.prefetch_buffer

/-- The pair of iterators set by `create_train_data_iterator`. -/
structure Iterators : Type where
  train_iterator : Dataset
  valid_iterator : Dataset
  deriving DecidableEq, Repr

/-- `BaseTrainable.create_train_data_iterator`: the train iterator over
`train_data` with the default shuffle, the valid iterator over `valid_data`
with `shuffle=False`, both with `epochs=1`. -/
def create_train_data_iterator (flags : Flags) : Iterators where
  train_iterator := tfrecord_pipeline flags flags.train_data flags.batch_size 1
  valid_iterator :=
    tfrecord_pipeline flags flags.valid_data flags.batch_size 1 false

/-- The two layer attributes `NeuralFactorizationMachine.build` sets. -/
structure NFMLayers (F : Type) : Type where
  B_Interaction_Layer : F → F
  Hidden_Layers : F → F

/-- `NeuralFactorizationMachine.build`: parse `deep_layers` into ints and
set the two layers from the delegated builders `build_fm` and `build_deep`
(defined in the factorization-machine parent class). -/
def NeuralFactorizationMachine.build {F : Type} (build_fm : F → F)
    (build_deep : List Int → (F → F)) (deep_layers : String) : NFMLayers F :=
  let hidden := (deep_layers.splitOn ",").map String.toInt!
  { B_Interaction_Layer := build_fm
    Hidden_Layers := build_deep hidden }

/-- `NeuralFactorizationMachine.build_network`: apply
`B_Interaction_Layer`, then `Hidden_Layers`, and return the result. -/
def NeuralFactorizationMachine.build_network {F : Type} (self : NFMLayers F)
    (features : F) : F :=
  let logit := self.B_Interaction_Layer features
  let logit := self.Hidden_Layers logit
  logit

/-- The first table entry, i.e. `LR_SCHEDULE[0]`. -/
theorem LR_SCHEDULE_headI : LR_SCHEDULE.headI = (3, 0.05) := rfl

/-- The last table entry, i.e. `LR_SCHEDULE[-1]`. -/
theorem LR_SCHEDULE_getLastI : LR_SCHEDULE.getLastI = (12, 0.001) := rfl

/-- Claim C1: `lr_schedule` returns the table rate at each of the four
boundaries 3, 6, 9, 12 (0.05, 0.01, 0.005, 0.001), and for every epoch
below 3 or above 12 it returns the input learning rate unchanged, for
every input learning rate. -/
theorem lr_schedule_boundaries_and_out_of_range :
    (∀ lr : ℚ, lr_schedule 3 lr = 0.05 ∧ lr_schedule 6 lr = 0.01 ∧
      lr_schedule 9 lr = 0.005 ∧ lr_schedule 12 lr = 0.001) ∧
    (∀ (epoch : Int) (lr : ℚ), epoch < 3 ∨ epoch > 12 →
      lr_schedule epoch lr = lr) := by
  constructor
  · intro lr
    refine ⟨?_, ?_, ?_, ?_⟩ <;>
    · simp only [lr_schedule, LR_SCHEDULE_headI, LR_SCHEDULE_getLastI]
      norm_num [lrLookup, LR_SCHEDULE]
  · intro epoch lr h
    have hh : epoch < (LR_SCHEDULE.headI).1 ∨ epoch > (LR_SCHEDULE.getLastI).1 := h
    simp only [lr_schedule, if_pos hh]

/-- Witness for C1 at epoch 0 and learning rate 1: epoch 0 is out of
range, so the schedule is the identity there; also epoch 3 hits the
table. -/
theorem lr_schedule_boundaries_and_out_of_range_witness :
    lr_schedule 0 1 = 1 ∧ lr_schedule 3 1 = 0.05 :=
  ⟨lr_schedule_boundaries_and_out_of_range.2 0 1 (Or.inl (by decide)),
   (lr_schedule_boundaries_and_out_of_range.1 1).1⟩

/-- Claim C10: for every epoch not equal to one of 3, 6, 9, 12 — in
particular for epochs strictly inside the table range such as 4, 5, 7,
8, 10, 11 — `lr_schedule` returns the input learning rate unchanged. -/
theorem lr_schedule_identity_off_boundaries (epoch : Int) (lr : ℚ)
    (h : epoch ∉ ([3, 6, 9, 12] : List Int)) : lr_schedule epoch lr = lr := by
  simp only [List.mem_cons, List.mem_singleton, not_or] at h
  obtain ⟨h3, h6, h9, h12⟩ := h
  simp [lr_schedule, LR_SCHEDULE, lrLookup, h3, h6, h9, h12]

/-- Witness for C10 at epoch 4, an epoch strictly inside the table range
that is not a boundary. -/
theorem lr_schedule_identity_off_boundaries_witness :
    lr_schedule 4 7 = 7 :=
  lr_schedule_identity_off_boundaries 4 7 (by decide)

/-- Claim C2: each of the seven named optimizer strings makes
`build_optimizer` return an instance of the correspondingly named
optimizer kind, carrying the `learning_rate` flag value. -/
theorem build_optimizer_named_choices (lr : ℚ) :
    build_optimizer "adam" lr = Except.ok ⟨OptimizerKind.Adam, lr⟩ ∧
    build_optimizer "adadelta" lr = Except.ok ⟨OptimizerKind.Adadelta, lr⟩ ∧
    build_optimizer "adagrad" lr = Except.ok ⟨OptimizerKind.Adagrad, lr⟩ ∧
    build_optimizer "lazyadam" lr = Except.ok ⟨OptimizerKind.LazyAdam, lr⟩ ∧
    build_optimizer "ftrl" lr = Except.ok ⟨OptimizerKind.Ftrl, lr⟩ ∧
    build_optimizer "sgd" lr = Except.ok ⟨OptimizerKind.SGD, lr⟩ ∧
    build_optimizer "RMSprop" lr = Except.ok ⟨OptimizerKind.RMSprop, lr⟩ := by
  refine ⟨?_, ?_, ?_, ?_, ?_, ?_, ?_⟩ <;> rfl

/-- Claim C3: every optimizer flag value other than the seven named ones
makes `build_optimizer` raise a ValueError whose message names the
unrecognized choice. -/
theorem build_optimizer_unknown_choice (s : String) (lr : ℚ)
    (h : s ∉ optimizer_enum_values) :
    build_optimizer s lr = Except.error
      (PyError.ValueError ("--optimizer " ++ s ++ " was not found.")) := by
  simp only [optimizer_enum_values, List.mem_cons, List.mem_singleton,
    not_or] at h
  obtain ⟨h1, h2, h3, h4, h5, h6, h7⟩ := h
  simp [build_optimizer, h1, h2, h3, h4, h5, h6, h7, Except.map]

/-- Witness for C3 at the unrecognized string "momentum". -/
theorem build_optimizer_unknown_choice_witness :
    build_optimizer "momentum" 1 = Except.error
      (PyError.ValueError "--optimizer momentum was not found.") :=
  build_optimizer_unknown_choice "momentum" 1 (by decide)

/-- Claim C8: the optimizer flag is declared as an enum over exactly the
seven named strings, so whenever the flag value passed enum validation,
`build_optimizer` succeeds: its ValueError branch is unreachable. -/
theorem build_optimizer_enum_validated_never_errors (s : String) (lr : ℚ)
    (h : s ∈ optimizer_enum_values) :
    ∃ inst : OptimizerInstance, build_optimizer s lr = Except.ok inst := by
  simp only [optimizer_enum_values, List.mem_cons, List.not_mem_nil,
    or_false] at h
  rcases h with h | h | h | h | h | h | h <;> subst h <;>
    exact ⟨_, rfl⟩

/-- Witness for C8 at the enum value "lazyadam", the flag default. -/
theorem build_optimizer_enum_validated_never_errors_witness :
    ∃ inst : OptimizerInstance, build_optimizer "lazyadam" 1 = Except.ok inst :=
  build_optimizer_enum_validated_never_errors "lazyadam" 1 (by decide)

/-- Claim C4: `build_loss` and `build_metrics` select the binary branch
exactly when the label cardinality `VOC_SIZE[LABEL]` equals two:
BinaryCrossentropy and [AUC, BinaryAccuracy] in that case,
SparseCategoricalCrossentropy and [SparseCategoricalAccuracy] otherwise. -/
theorem build_loss_and_metrics_binary_branch (VOC_SIZE : String → Nat)
    (LABEL : String) :
    (build_loss VOC_SIZE LABEL = Loss.BinaryCrossentropy ↔
      VOC_SIZE LABEL = 2) ∧
    (build_loss VOC_SIZE LABEL = Loss.SparseCategoricalCrossentropy ↔
      ¬ VOC_SIZE LABEL = 2) ∧
    (build_metrics VOC_SIZE LABEL = [Metric.AUC, Metric.BinaryAccuracy] ↔
      VOC_SIZE LABEL = 2) ∧
    (build_metrics VOC_SIZE LABEL = [Metric.SparseCategoricalAccuracy] ↔
      ¬ VOC_SIZE LABEL = 2) := by
  by_cases h : VOC_SIZE LABEL = 2 <;>
    simp [build_loss, build_metrics, h]

/-- Claim C5: the two stub methods `get_summary` and `parser` raise
NotImplementedError unconditionally and produce no value, and they are
the only ones: the one other fallible method in the embedding,
`build_optimizer`, never raises NotImplementedError (every remaining
method returns a plain value and raises nothing). -/
theorem only_get_summary_and_parser_are_stubs :
    raisedNotImplemented get_summary = true ∧
    (∀ record : String,
      raisedNotImplemented (parser record : Except PyError Unit) = true) ∧
    (∀ (s : String) (lr : ℚ),
      raisedNotImplemented (build_optimizer s lr) = false) := by
  refine ⟨rfl, fun record => rfl, fun s lr => ?_⟩
  simp only [build_optimizer]
  by_cases h1 : s = "adam" <;> by_cases h2 : s = "adadelta" <;>
    by_cases h3 : s = "adagrad" <;> by_cases h4 : s = "lazyadam" <;>
    by_cases h5 : s = "ftrl" <;> by_cases h6 : s = "sgd" <;>
    by_cases h7 : s = "RMSprop" <;>
    simp [h1, h2, h3, h4, h5, h6, h7, Except.map, raisedNotImplemented]

/-- Claim C6: with shuffle enabled, `tfrecord_pipeline` is exactly the
sequential composition map, shuffle, repeat, batch, prefetch, in this
order, over the TFRecord source, with the parallel-parse degree, shuffle
buffer, epochs, batch size and prefetch buffer supplied to the matching
operator; with shuffle disabled the shuffle operator is omitted and the
remaining four keep the same order. -/
theorem tfrecord_pipeline_operator_composition (flags : Flags)
    (tfrecord_files : String) (batch_size epochs : Nat) :
    tfrecord_pipeline flags tfrecord_files batch_size epochs true =
      Dataset.prefetch
        (Dataset.batch
          (Dataset.repeatOp
            (Dataset.shuffle
              (Dataset.map
                (Dataset.TFRecordDataset [tfrecord_files]
                  (if flags.gzip then some "GZIP" else none))
                (num_parallel_calls_of flags.parallel_parse))
              flags.shuffle_buffer)
            epochs)
          batch_size)
        flags.prefetch_buffer ∧
    tfrecord_pipeline flags tfrecord_files batch_size epochs false =
      Dataset.prefetch
        (Dataset.batch
          (Dataset.repeatOp
            (Dataset.map
              (Dataset.TFRecordDataset [tfrecord_files]
                (if flags.gzip then some "GZIP" else none))
              (num_parallel_calls_of flags.parallel_parse))
            epochs)
          batch_size)
        flags.prefetch_buffer :=
  ⟨rfl, rfl⟩

/-- Claim C9: `create_train_data_iterator` builds the training iterator
from `train_data` with shuffling enabled and the validation iterator from
`valid_data` with shuffling disabled, and passes epochs = 1 to the
pipeline for both, whatever the `epochs` flag holds. -/
theorem create_train_data_iterator_spec (flags : Flags) :
    (create_train_data_iterator flags).train_iterator =
      tfrecord_pipeline flags flags.train_data flags.batch_size 1 true ∧
    (create_train_data_iterator flags).valid_iterator =
      tfrecord_pipeline flags flags.valid_data flags.batch_size 1 false ∧
    (create_train_data_iterator flags).train_iterator =
      Dataset.prefetch
        (Dataset.batch
          (Dataset.repeatOp
            (Dataset.shuffle
              (Dataset.map
                (Dataset.TFRecordDataset [flags.train_data]
                  (if flags.gzip then some "GZIP" else none))
                (num_parallel_calls_of flags.parallel_parse))
              flags.shuffle_buffer)
            1)
          flags.batch_size)
        flags.prefetch_buffer ∧
    (create_train_data_iterator flags).valid_iterator =
      Dataset.prefetch
        (Dataset.batch
          (Dataset.repeatOp
            (Dataset.map
              (Dataset.TFRecordDataset [flags.valid_data]
                (if flags.gzip then some "GZIP" else none))
              (num_parallel_calls_of flags.parallel_parse))
            1)
          flags.batch_size)
        flags.prefetch_buffer :=
  ⟨rfl, rfl, rfl, rfl⟩

/-- Claim C7: `build_network` contributes no logic of its own: on the
layers installed by `build`, it returns exactly the deep layer stack
produced by `build_deep` applied to the output of the interaction layer
produced by `build_fm` on the features. -/
theorem build_network_is_layer_composition {F : Type} (build_fm : F → F)
    (build_deep : List Int → (F → F)) (deep_layers : String) (features : F) :
    NeuralFactorizationMachine.build_network
        (NeuralFactorizationMachine.build build_fm build_deep deep_layers)
        features =
      build_deep ((deep_layers.splitOn ",").map String.toInt!)
        (build_fm features) :=
  rfl

end DeePray
